import Mathlib

/-!
Verification of the TARubrics front end (CSV export, API client error
handling, form submission, and view-state update discipline) against its
specification.  The definitions below are a shallow embedding of the
JavaScript source: `frontend/src/components/ResultsTable.jsx`
(`downloadCsv`), `frontend/src/api.js` (the five fetch wrappers),
`frontend/src/components/RoleCreationForm.jsx` (`handleSubmit`) and
`frontend/src/components/RoleDetails.jsx` (`fetchData`).
-/

namespace TARubrics

/-- A flat JavaScript runtime value, as can appear in a `Result` field
(`file_name`, `score`, `pass_fail_status`, `justification`).  `undef`
models the JavaScript value `undefined` (an absent property). -/
inductive JsValue where
  | undef
  | null
  | bool (b : Bool)
  | num (n : Int)
  | str (s : String)
deriving DecidableEq, Repr

/-- JavaScript `String(x)` conversion for flat values. -/
def jsString : JsValue → String
  | .undef => "undefined"
  | .null => "null"
  | .bool b => if b then "true" else "false"
  | .num n => toString n
  | .str s => s

/-- JavaScript truthiness of a flat value (`NaN` is not modelled;
integers stand in for JS numbers). -/
def truthy : JsValue → Bool
  | .undef => false
  | .null => false
  | .bool b => b
  | .num n => n != 0
  | .str s => s != ""

/-- JavaScript `a || b`. -/
def jsOr (a b : JsValue) : JsValue := if truthy a then a else b

/-- `.replace(/"/g, '""')` on the character list of a string: every double
quote is doubled. -/
def escQuotes : List Char → List Char
  | [] => []
  | c :: t => if c = '"' then '"' :: '"' :: escQuotes t else c :: escQuotes t

/-- The CSV quoting step of `downloadCsv`:
`` `"${String(field).replace(/"/g, '""')}"` `` applied to an
already-converted string. -/
def quoteField (s : String) : String :=
  String.mk ('"' :: (escQuotes s.data ++ ['"']))

/-- Lower-case hexadecimal digit for `n < 16`. -/
def hexDigit (n : Nat) : Char :=
  if n < 10 then Char.ofNat (48 + n) else Char.ofNat (87 + n)

/-- JSON escaping of one character, as performed by `JSON.stringify` on a
string: `"` and `\` are backslash-escaped, the named control characters
use their short escapes, other control characters use `\u00XX`, and all
other characters are emitted verbatim. -/
def escJsonChar (c : Char) : List Char :=
  if c = '"' then ['\\', '"']
  else if c = '\\' then ['\\', '\\']
  else if c = '\n' then ['\\', 'n']
  else if c = '\r' then ['\\', 'r']
  else if c = '\t' then ['\\', 't']
  else if c = '\x08' then ['\\', 'b']
  else if c = '\x0c' then ['\\', 'f']
  else if c.toNat < 32 then
    ['\\', 'u', '0', '0', hexDigit (c.toNat / 16), hexDigit (c.toNat % 16)]
  else [c]

/-- JSON escaping of a character list. -/
def escJsonList : List Char → List Char
  | [] => []
  | c :: t => escJsonChar c ++ escJsonList t

/-- `JSON.stringify` applied to a string: the escaped text surrounded by
literal double-quote characters. -/
def jsonEncodeStr (s : String) : String :=
  String.mk ('"' :: (escJsonList s.data ++ ['"']))

/-- `JSON.stringify` applied to a flat value.  On `undefined` it returns
`undefined`; on other flat values it returns the JSON text as a string. -/
def jsonStringifyVal : JsValue → JsValue
  | .undef => .undef
  | .null => .str "null"
  | .bool b => .str (if b then "true" else "false")
  | .num n => .str (toString n)
  | .str s => .str (jsonEncodeStr s)

/-- The `evaluation_details` object of a `Result`
(`pass_fail_status`, `justification`, `cited_evidence`,
`competency_scores`); `Option.none` / `JsValue.undef` model absent
properties.  The competency-score object is kept as its list of
key/value properties in insertion order. -/
structure EvaluationDetails where
  pass_fail_status : JsValue
  justification : JsValue
  cited_evidence : Option (List String)
  competency_scores : Option (List (String × JsValue))
deriving DecidableEq

/-- One `Result` record as consumed by `ResultsTable`. -/
structure Result where
  file_name : JsValue
  score : JsValue
  evaluation_details : Option EvaluationDetails
deriving DecidableEq

/-- `result.evaluation_details || {}` from `downloadCsv` line 14. -/
def detailsOf (r : Result) : EvaluationDetails :=
  r.evaluation_details.getD ⟨.undef, .undef, none, none⟩

/-- The numeric value of a decimal digit character, if it is one. -/
def charDigit? (c : Char) : Option Nat :=
  if '0' ≤ c ∧ c ≤ '9' then some (c.toNat - 48) else none

/-- Accumulate the decimal value of a digit list; `none` on any
non-digit. -/
def digitsValAux (acc : Nat) : List Char → Option Nat
  | [] => some acc
  | c :: t =>
    match charDigit? c with
    | some d => digitsValAux (acc * 10 + d) t
    | none => none

/-- Parse a non-empty all-digit string to its decimal value. -/
def strToNat? (s : String) : Option Nat :=
  match s.data with
  | [] => none
  | l => digitsValAux 0 l

/-- Whether a string is a canonical array-index property key in
JavaScript: the decimal representation of some `n < 2^32 - 1` with no
leading zeros.  `Object.entries` lists such keys first, in ascending
numeric order, before the remaining string keys in insertion order. -/
def isArrayIndexKey (s : String) : Bool :=
  match strToNat? s with
  | some n => decide (Nat.repr n = s) && decide (n < 4294967295)
  | none => false

/-- Numeric value of an array-index key (0 on non-numeric input). -/
def idxVal (s : String) : Nat := (strToNat? s).getD 0

/-- Insert a property into a list sorted by ascending array index. -/
def insertIdx (p : String × JsValue) :
    List (String × JsValue) → List (String × JsValue)
  | [] => [p]
  | q :: t => if idxVal p.1 ≤ idxVal q.1 then p :: q :: t else q :: insertIdx p t

/-- Insertion sort of properties by ascending array index. -/
def sortIdx : List (String × JsValue) → List (String × JsValue)
  | [] => []
  | p :: t => insertIdx p (sortIdx t)

/-- `Object.entries(o)` property order: canonical array-index keys in
ascending numeric order first, then the remaining keys in insertion
order. -/
def jsEntries (m : List (String × JsValue)) : List (String × JsValue) :=
  sortIdx (m.filter fun p => isArrayIndexKey p.1) ++
    m.filter fun p => !isArrayIndexKey p.1

/-- `Object.entries(details.competency_scores).map(([key, value]) =>
`` `${key}: ${value}` ``).join('; ')` from `downloadCsv` line 16. -/
def renderCompetency (m : List (String × JsValue)) : String :=
  String.intercalate "; " ((jsEntries m).map fun p => p.1 ++ ": " ++ jsString p.2)

/-- `details.cited_evidence.join('; ')` from `downloadCsv` line 17. -/
def renderEvidence (l : List String) : String := String.intercalate "; " l

/-- The competency-scores text of a row: empty when the object is absent
(`details.competency_scores ? … : ''`). -/
def competencyField (d : EvaluationDetails) : String :=
  match d.competency_scores with
  | some m => renderCompetency m
  | none => ""

/-- The cited-evidence text of a row: empty when the list is absent
(`details.cited_evidence ? … : ''`). -/
def evidenceField (d : EvaluationDetails) : String :=
  match d.cited_evidence with
  | some l => renderEvidence l
  | none => ""

/-- The six raw field values of one CSV row, before quoting
(`downloadCsv` lines 19–25): file name, score,
`details.pass_fail_status || 'N/A'`,
`JSON.stringify(details.justification || '')`,
`JSON.stringify(citedEvidence)`, `JSON.stringify(competencyScores)`. -/
def fieldValues (r : Result) : List JsValue :=
  let details := detailsOf r
  [r.file_name,
   r.score,
   jsOr details.pass_fail_status (.str "N/A"),
   jsonStringifyVal (jsOr details.justification (.str "")),
   jsonStringifyVal (.str (evidenceField details)),
   jsonStringifyVal (.str (competencyField details))]

/-- The per-field map of `downloadCsv` line 26:
`` field => `"${String(field).replace(/"/g, '""')}"` ``. -/
def exportField (v : JsValue) : String := quoteField (jsString v)

/-- The six quoted field strings of one CSV row. -/
def rowFieldStrings (r : Result) : List String :=
  (fieldValues r).map exportField

/-- One data row of the exported CSV: the quoted fields joined with
commas. -/
def downloadCsvRow (r : Result) : String :=
  String.intercalate "," (rowFieldStrings r)

/-- The header names of `downloadCsv` line 12. -/
def csvHeaders : List String :=
  ["File Name", "Score", "Pass/Fail", "Justification", "Cited Evidence",
   "Competency Scores"]

/-- The quoted header row (`headers.map(h => `` `"${h}"` ``).join(',')`). -/
def headerRow : String :=
  String.intercalate "," (csvHeaders.map fun h => "\"" ++ h ++ "\"")

/-- The full CSV text produced by `downloadCsv`:
`[headerRow, ...rows].join('\n')`. -/
def downloadCsvContent (results : List Result) : String :=
  String.intercalate "\n" (headerRow :: results.map downloadCsvRow)

/-- Body of a standard CSV field reader, after the opening quote has been
consumed: a doubled quote stands for one literal quote, a single quote at
the very end closes the field, and anything else is taken verbatim;
malformed input yields `none`. -/
def csvFieldBody : List Char → Option (List Char)
  | [] => none
  | c :: rest =>
    if c = '"' then
      match rest with
      | [] => some []
      | c2 :: rest2 =>
        if c2 = '"' then (csvFieldBody rest2).map (fun l => '"' :: l) else none
    else (csvFieldBody rest).map (fun l => c :: l)

/-- A standard CSV reader for a single quoted field: unwrap the
surrounding double quotes and collapse each doubled double quote to
one. -/
def csvReadField (s : String) : Option String :=
  match s.data with
  | [] => none
  | c :: rest =>
    if c = '"' then (csvFieldBody rest).map String.mk else none

/-- Rebuilding a string from its character list is the identity. -/
theorem string_mk_data (s : String) : String.mk s.data = s := by
  cases s
  rfl

/-- Reading back a quote-doubled body terminated by a closing quote
recovers the original characters. -/
theorem csvFieldBody_escQuotes (cs : List Char) :
    csvFieldBody (escQuotes cs ++ ['"']) = some cs := by
  induction cs with
  | nil => simp [escQuotes, csvFieldBody]
  | cons c t ih =>
    by_cases hc : c = '"'
    · subst hc
      simp [escQuotes, csvFieldBody, ih]
    · rw [escQuotes]
      simp only [hc, if_false, List.cons_append]
      rw [csvFieldBody.eq_def]
      simp [hc, ih]

/-- A standard CSV reader inverts the quoting step of `downloadCsv`. -/
theorem csvReadField_quoteField (s : String) :
    csvReadField (quoteField s) = some s := by
  simp [csvReadField, quoteField, csvFieldBody_escQuotes, string_mk_data]

/-- Whether a string contains a double quote, a comma, or a newline. -/
def containsSpecial (s : String) : Bool :=
  s.data.any fun c => c = '"' || c = ',' || c = '\n'

/-- A string containing a special character is not empty. -/
theorem containsSpecial_ne_empty {s : String} (h : containsSpecial s = true) :
    s ≠ "" := by
  intro he
  subst he
  simp [containsSpecial] at h

/-- The example Result of the specification's end-to-end CSV example. -/
def aliceResult : Result :=
  ⟨.str "alice.pdf", .num 82,
   some ⟨.str "Pass", .str "Strong, clear communicator",
         some ["5 yrs mgmt"], some [("Leadership", .num 4)]⟩⟩

/-- C1 (counterexample): the exported row for the specification's example
Result is not the claimed row
`"alice.pdf","82","Pass","Strong, clear communicator","5 yrs mgmt","Leadership: 4"`:
the last three fields pass through `JSON.stringify` before CSV quoting,
which adds literal double quotes that the quoting step then doubles. -/
theorem c1_counterexample :
    downloadCsvRow aliceResult ≠
      "\"alice.pdf\",\"82\",\"Pass\",\"Strong, clear communicator\",\"5 yrs mgmt\",\"Leadership: 4\"" := by
  decide

/-- C1 (amended): for the Result `{file_name: "alice.pdf", score: 82,
evaluation_details: {pass_fail_status: "Pass", justification: "Strong,
clear communicator", cited_evidence: ["5 yrs mgmt"], competency_scores:
{"Leadership": 4}}}`, the CSV serialization in `downloadCsv` produces
exactly the data row
`"alice.pdf","82","Pass","""Strong, clear communicator""","""5 yrs mgmt""","""Leadership: 4"""`
(the justification, evidence, and competency texts are JSON-stringified
before the CSV quoting, so each carries an extra pair of doubled
quotes). -/
theorem c1_alice_row :
    downloadCsvRow aliceResult =
      "\"alice.pdf\",\"82\",\"Pass\",\"\"\"Strong, clear communicator\"\"\",\"\"\"5 yrs mgmt\"\"\",\"\"\"Leadership: 4\"\"\"" := by
  decide

/-- The concrete Result used to refute and witness the C2 round-trip
claim: its justification `a,b` contains a comma. -/
def c2Result : Result :=
  ⟨.str "x.pdf", .num 1, some ⟨.str "Pass", .str "a,b", none, none⟩⟩

/-- C2 (counterexample): for the Result with justification `a,b` (which
contains a comma), a standard CSV reader applied to the exported
justification field yields the five-character text `"a,b"` (with literal
surrounding double quotes), not the original three-character text
`a,b`. -/
theorem c2_counterexample :
    csvReadField (List.getD (rowFieldStrings c2Result) 3 "") = some "\"a,b\"" ∧
    ("\"a,b\"" : String) ≠ "a,b" := by
  decide

/-- C2 (amended): for every Result whose justification text contains a
double quote, a comma, or a newline, parsing the exported justification
field back with a standard CSV reader (unwrap the surrounding double
quotes, collapse each doubled double quote to one) yields the JSON
string-literal encoding of the original justification text — the text
surrounded by literal double quotes, with backslash escapes inside — not
the original text itself. -/
theorem c2_roundtrip_json (r : Result) (d : EvaluationDetails) (j : String)
    (hd : r.evaluation_details = some d) (hj : d.justification = .str j)
    (hs : containsSpecial j = true) :
    csvReadField (List.getD (rowFieldStrings r) 3 "") = some (jsonEncodeStr j) := by
  have hne : j ≠ "" := containsSpecial_ne_empty hs
  obtain ⟨fn, sc, ed⟩ := r
  have hed : ed = some d := hd
  subst hed
  have hgd : List.getD (rowFieldStrings ⟨fn, sc, some d⟩) 3 "" =
      exportField (jsonStringifyVal (jsOr d.justification (.str ""))) := rfl
  rw [hgd, hj]
  have hor : jsOr (.str j) (.str "") = .str j := by
    simp [jsOr, truthy, hne]
  rw [hor]
  exact csvReadField_quoteField (jsonEncodeStr j)

/-- C2 (witness): the amended round-trip theorem applied to the concrete
Result with justification `a,b`. -/
theorem c2_roundtrip_json_witness :
    containsSpecial "a,b" = true ∧
    csvReadField (List.getD (rowFieldStrings c2Result) 3 "") =
      some (jsonEncodeStr "a,b") :=
  ⟨by decide,
   c2_roundtrip_json c2Result ⟨.str "Pass", .str "a,b", none, none⟩ "a,b"
     rfl rfl (by decide)⟩

/-- The concrete Result whose `evaluation_details` is absent, used for
C3. -/
def bobResult : Result := ⟨.str "bob.pdf", .num 50, none⟩

/-- C3 (counterexample): for a Result without `evaluation_details`, the
exported row is not `"bob.pdf","50","N/A","","",""`: the justification,
evidence, and competency fields are not empty — each holds the
JSON-stringified empty string `""`, CSV-quoted into six consecutive
double quotes. -/
theorem c3_counterexample :
    downloadCsvRow bobResult ≠ "\"bob.pdf\",\"50\",\"N/A\",\"\",\"\",\"\"" ∧
    csvReadField (List.getD (rowFieldStrings bobResult) 3 "") ≠ some "" := by
  decide

/-- C3 (amended): for every Result whose `evaluation_details` field is
absent, the CSV serialization raises no failure (it is a total function)
and produces a row whose Pass/Fail field is the literal string `N/A`,
and whose Justification, Cited Evidence, and Competency Scores fields
each consist of six double-quote characters — the CSV quoting of the
two-character text `""` (the JSON encoding of the empty string), not of
the empty string.  A standard CSV reader returns `""` for each of those
fields. -/
theorem c3_missing_details (r : Result) (h : r.evaluation_details = none) :
    rowFieldStrings r =
      [exportField r.file_name, exportField r.score, "\"N/A\"",
       "\"\"\"\"\"\"", "\"\"\"\"\"\"", "\"\"\"\"\"\""] ∧
    csvReadField "\"\"\"\"\"\"" = some "\"\"" := by
  obtain ⟨fn, sc, ed⟩ := r
  cases ed with
  | none => exact ⟨rfl, by decide⟩
  | some d => exact Option.noConfusion h

/-- C3 (witness): the amended theorem applied to the concrete Result
`bob.pdf` with no `evaluation_details`. -/
theorem c3_missing_details_witness :
    rowFieldStrings bobResult =
      [exportField bobResult.file_name, exportField bobResult.score, "\"N/A\"",
       "\"\"\"\"\"\"", "\"\"\"\"\"\"", "\"\"\"\"\"\""] ∧
    csvReadField "\"\"\"\"\"\"" = some "\"\"" :=
  c3_missing_details bobResult rfl

/-- C4 (counterexample): a competency-score object whose keys are the
array-index strings `"2"` and `"1"`, inserted in that order, is rendered
with the keys reordered to ascending numeric order (`1: 2; 2: 1`), not in
insertion order (`2: 1; 1: 2`): JavaScript `Object.entries` lists
array-index keys first, in ascending numeric order. -/
theorem c4_counterexample :
    renderCompetency [("2", .num 1), ("1", .num 2)] = "1: 2; 2: 1" ∧
    renderCompetency [("2", .num 1), ("1", .num 2)] ≠ "2: 1; 1: 2" := by
  decide

/-- C4 (amended): for every competency-score mapping none of whose keys
is a canonical array-index string (such as ordinary competency names),
the exported Competency Scores field renders the entries as
`name: value` pairs joined by `; ` in the mapping's key insertion order;
mappings with array-index keys instead list those keys first in
ascending numeric order. -/
theorem c4_insertion_order (m : List (String × JsValue))
    (h : ∀ p ∈ m, isArrayIndexKey p.1 = false) :
    renderCompetency m =
      String.intercalate "; " (m.map fun p => p.1 ++ ": " ++ jsString p.2) := by
  have h1 : m.filter (fun p => isArrayIndexKey p.1) = [] := by
    rw [List.filter_eq_nil_iff]
    intro p hp
    simp [h p hp]
  have h2 : m.filter (fun p => !isArrayIndexKey p.1) = m := by
    rw [List.filter_eq_self]
    intro p hp
    simp [h p hp]
  simp [renderCompetency, jsEntries, h1, h2, sortIdx]

/-- A concrete competency-score mapping with ordinary (non-index) keys. -/
def c4Scores : List (String × JsValue) :=
  [("Leadership", .num 4), ("Communication", .num 3)]

/-- C4 (witness): the amended theorem applied to a concrete two-entry
mapping with ordinary competency names. -/
theorem c4_insertion_order_witness :
    (∀ p ∈ c4Scores, isArrayIndexKey p.1 = false) ∧
    renderCompetency c4Scores =
      String.intercalate "; " (c4Scores.map fun p => p.1 ++ ": " ++ jsString p.2) :=
  ⟨by decide, c4_insertion_order c4Scores (by decide)⟩

/-- C5: applied to the empty sequence of Results, the CSV serialization
(a total function, so it cannot fail) yields exactly the quoted header
row, with no trailing newline and no further rows. -/
theorem c5_empty_export :
    downloadCsvContent [] =
      "\"File Name\",\"Score\",\"Pass/Fail\",\"Justification\",\"Cited Evidence\",\"Competency Scores\"" := by
  decide

/-- C10: the CSV serialization is total over field values of any type:
every row has exactly six quoted fields for every Result (the embedding
is a total function, so nothing is raised), and a Result whose
`file_name` is absent (`undefined`) serializes its first field as the
text `undefined`; a `null` score likewise serializes as `null`. -/
theorem c10_total_row (r : Result) :
    (rowFieldStrings r).length = 6 ∧
    (r.file_name = JsValue.undef →
      List.getD (rowFieldStrings r) 0 "" = "\"undefined\"") ∧
    (r.score = JsValue.null →
      List.getD (rowFieldStrings r) 1 "" = "\"null\"") := by
  obtain ⟨fn, sc, ed⟩ := r
  refine ⟨rfl, ?_, ?_⟩
  · intro h
    have hfn : fn = JsValue.undef := h
    subst hfn
    rfl
  · intro h
    have hsc : sc = JsValue.null := h
    subst hsc
    rfl

/-- A Result with an absent file name and a null score. -/
def oddResult : Result := ⟨.undef, .null, none⟩

/-- C10 (witness): the totality theorem applied to a concrete Result with
an `undefined` file name and a `null` score. -/
theorem c10_total_row_witness :
    (rowFieldStrings oddResult).length = 6 ∧
    List.getD (rowFieldStrings oddResult) 0 "" = "\"undefined\"" ∧
    List.getD (rowFieldStrings oddResult) 1 "" = "\"null\"" :=
  ⟨(c10_total_row oddResult).1, (c10_total_row oddResult).2.1 rfl,
   (c10_total_row oddResult).2.2 rfl⟩

/-- A thrown JavaScript error: its constructor name (`Error`,
`SyntaxError`, `TypeError`) and its `message`. -/
structure ThrownError where
  name : String
  message : String
deriving DecidableEq, Repr

/-- A parsed JSON value, as produced by `response.json()`. -/
inductive Json where
  | null
  | bool (b : Bool)
  | num (n : Int)
  | str (s : String)
  | obj (fields : List (String × Json))

/-- First-match association-list lookup (JavaScript property access on a
parsed JSON object; JSON objects have unique keys). -/
def assocLookup {α : Type} : List (String × α) → String → Option α
  | [], _ => none
  | (k, v) :: t, key => if k = key then some v else assocLookup t key

/-- JavaScript truthiness of a parsed JSON value. -/
def jsonTruthy : Json → Bool
  | .null => false
  | .bool b => b
  | .num n => n != 0
  | .str s => s != ""
  | .obj _ => true

/-- JavaScript `String(x)` conversion of a parsed JSON value, as used by
the `Error` constructor on its argument. -/
def jsonToString : Json → String
  | .null => "null"
  | .bool b => if b then "true" else "false"
  | .num n => toString n
  | .str s => s
  | .obj _ => "[object Object]"

/-- `errorData.detail`: property access on the parsed error body.  On
`null` it throws a `TypeError`; on a non-object it yields `undefined`
(modelled as `none`); on an object it looks the key up. -/
def getDetail : Json → Except ThrownError (Option Json)
  | .null =>
    .error ⟨"TypeError", "Cannot read properties of null (reading 'detail')"⟩
  | .obj fields => .ok (assocLookup fields "detail")
  | .bool _ => .ok none
  | .num _ => .ok none
  | .str _ => .ok none

/-- An HTTP response as seen by the fetch wrappers: its `ok` flag and its
body.  `Except.error msg` models a body on which `response.json()`
rejects, carrying the JSON parser's message. -/
structure Response where
  ok : Bool
  body : Except String Json

/-- The five operations of the API client in `frontend/src/api.js`. -/
inductive ApiOp where
  | getRoles
  | createRole
  | getRoleDetails
  | getRoleResults
  | uploadResume
deriving DecidableEq

/-- The fixed per-operation fallback message of each fetch wrapper. -/
def opDefaultMsg : ApiOp → String
  | .getRoles => "Failed to fetch roles"
  | .createRole => "Failed to create role"
  | .getRoleDetails => "Failed to fetch role details"
  | .getRoleResults => "Failed to fetch role results"
  | .uploadResume => "Failed to upload resume"

/-- The error thrown by a fetch wrapper when `response.ok` is false:
`const errorData = await response.json()` — so an unparsable body makes
the wrapper rethrow the JSON parser's `SyntaxError` from the catch block
— then `throw new Error(errorData.detail || '<default>')`. -/
def apiThrownError (op : ApiOp) (resp : Response) : ThrownError :=
  match resp.body with
  | .error parseMsg => ⟨"SyntaxError", parseMsg⟩
  | .ok j =>
    match getDetail j with
    | .error e => e
    | .ok none => ⟨"Error", opDefaultMsg op⟩
    | .ok (some v) =>
      ⟨"Error", if jsonTruthy v then jsonToString v else opDefaultMsg op⟩

/-- One API operation applied to the response it receives: on a
successful status the parsed body is returned (an unparsable success
body rethrows the parser's error); on a non-success status the wrapper
throws `apiThrownError`. -/
def apiOutcome (op : ApiOp) (resp : Response) : Except ThrownError Json :=
  if resp.ok then
    match resp.body with
    | .ok j => .ok j
    | .error parseMsg => .error ⟨"SyntaxError", parseMsg⟩
  else .error (apiThrownError op resp)

/-- A non-success response whose body is not parsable JSON. -/
def unparsableResp : Response := ⟨false, .error "Unexpected end of JSON input"⟩

/-- C6 (counterexample): for `getRoles` and a non-2xx response whose body
is not parsable JSON, the operation does not fail with its fixed default
message `Failed to fetch roles`: `await response.json()` throws first,
so the operation rethrows the JSON parser's `SyntaxError` instead. -/
theorem c6_counterexample :
    apiOutcome .getRoles unparsableResp =
      .error ⟨"SyntaxError", "Unexpected end of JSON input"⟩ ∧
    (apiThrownError .getRoles unparsableResp).message ≠
      opDefaultMsg .getRoles := by
  exact ⟨rfl, by decide⟩

/-- C6 (amended): for every API client operation and every non-2xx
response: when the body parses to a JSON object with a non-empty string
`detail`, the operation throws an error whose message is that string;
when the body parses to an object without a `detail` key, the message is
the operation's fixed per-call default; but when the body is not
parsable JSON, the operation instead rethrows the JSON parser's
`SyntaxError` — the per-call default is not used in that case. -/
theorem c6_error_message (op : ApiOp) (resp : Response) (h : resp.ok = false) :
    (∀ fields s, resp.body = .ok (.obj fields) →
        assocLookup fields "detail" = some (.str s) → s ≠ "" →
        apiOutcome op resp = .error ⟨"Error", s⟩) ∧
    (∀ fields, resp.body = .ok (.obj fields) →
        assocLookup fields "detail" = none →
        apiOutcome op resp = .error ⟨"Error", opDefaultMsg op⟩) ∧
    (∀ parseMsg, resp.body = .error parseMsg →
        apiOutcome op resp = .error ⟨"SyntaxError", parseMsg⟩) := by
  obtain ⟨ok, body⟩ := resp
  have hok : ok = false := h
  subst hok
  refine ⟨?_, ?_, ?_⟩
  · intro fields s hb hl hs
    have hb2 : body = .ok (.obj fields) := hb
    subst hb2
    simp [apiOutcome, apiThrownError, getDetail, hl, jsonTruthy, jsonToString, hs]
  · intro fields hb hl
    have hb2 : body = .ok (.obj fields) := hb
    subst hb2
    simp [apiOutcome, apiThrownError, getDetail, hl]
  · intro parseMsg hb
    have hb2 : body = .error parseMsg := hb
    subst hb2
    rfl

/-- The simulated 400 response of the create-role scenario:
body `{"detail":"title required"}`. -/
def detailResp : Response :=
  ⟨false, .ok (.obj [("detail", .str "title required")])⟩

/-- C6 (witness): the amended theorem applied to `createRole` and the
concrete 400 response with body `{"detail":"title required"}`. -/
theorem c6_error_message_witness :
    Response.ok detailResp = false ∧
    apiOutcome .createRole detailResp = .error ⟨"Error", "title required"⟩ :=
  ⟨rfl, (c6_error_message .createRole detailResp rfl).1
    [("detail", .str "title required")] "title required" rfl rfl (by decide)⟩

/-- The state held by `RoleCreationForm`: the two text fields, the
loading flag, and the displayed error. -/
structure FormState where
  title : String
  description : String
  loading : Bool
  error : Option String
deriving DecidableEq

/-- `handleSubmit` of `RoleCreationForm`, given the settled outcome of
its `createRole` call: it sets loading and clears the error, then on
success navigates to the list view, on failure stores the thrown error's
message, and finally clears the loading flag.  It never touches the
title or description state.  Returns the final form state and whether
the form navigated away. -/
def handleSubmit (st : FormState) (outcome : Except ThrownError Json) :
    FormState × Bool :=
  let st1 : FormState := ⟨st.title, st.description, true, none⟩
  match outcome with
  | .ok _ => (⟨st1.title, st1.description, false, st1.error⟩, true)
  | .error e => (⟨st1.title, st1.description, false, some e.message⟩, false)

/-- C7: when `createRole` fails with a 400 response whose body is
`{"detail":"title required"}`, the creation form sets its error state to
exactly the thrown error's message (`title required`), does not navigate
to the list view, and leaves the title and description form state
unchanged. -/
theorem c7_create_failure (st : FormState) :
    handleSubmit st (apiOutcome .createRole detailResp) =
      (⟨st.title, st.description, false, some "title required"⟩, false) := rfl

/-- The state held by the role detail view (`RoleDetails`): the fetched
role, its results, the loading flag, and the displayed error. -/
structure ViewState where
  role : Option Json
  results : List Json
  loading : Bool
  error : Option String

/-- One React state-setter call issued by `RoleDetails.fetchData`. -/
inductive SetStep where
  | setRole (v : Json)
  | setResults (v : List Json)
  | setLoading (b : Bool)
  | setError (e : Option String)

/-- Apply one state-setter call to the view state of a mounted
component. -/
def applyStep (st : ViewState) : SetStep → ViewState
  | .setRole v => ⟨some v, st.results, st.loading, st.error⟩
  | .setResults v => ⟨st.role, v, st.loading, st.error⟩
  | .setLoading b => ⟨st.role, st.results, b, st.error⟩
  | .setError e => ⟨st.role, st.results, st.loading, e⟩

/-- Execute the setter calls of a `fetchData` run whose component is
unmounted after the first `k` calls.  A call made at index `≥ k` finds
the component unmounted; per React semantics a state setter on an
unmounted component is a no-op (it raises nothing), so the state is left
unchanged.  The function is total: no execution raises. -/
def runFrom (st : ViewState) (i k : Nat) : List SetStep → ViewState
  | [] => st
  | s :: t => runFrom (if i < k then applyStep st s else st) (i + 1) k t

/-- The setter calls of a fully successful `fetchData` run, in program
order: `setLoading(true)`, `setError(null)` synchronously, then
`setRole`, `setResults` as each await resolves, then `setLoading(false)`
in the finally block. -/
def fetchDataSuccessSteps (roleData : Json) (resultsData : List Json) :
    List SetStep :=
  [.setLoading true, .setError none, .setRole roleData,
   .setResults resultsData, .setLoading false]

/-- The setter calls of a `fetchData` run whose first await rejects:
the catch block stores the message, the finally block clears loading. -/
def fetchDataFailureSteps (msg : String) : List SetStep :=
  [.setLoading true, .setError none, .setError (some msg),
   .setLoading false]

/-- The setter calls of a `fetchData` run where `getRoleDetails`
succeeds but `getRoleResults` rejects. -/
def fetchDataPartialSteps (roleData : Json) (msg : String) : List SetStep :=
  [.setLoading true, .setError none, .setRole roleData,
   .setError (some msg), .setLoading false]

/-- C8: for every in-flight `fetchData` of the role detail view, if the
component unmounts before the first response arrives (i.e. after the two
synchronous setter calls, `k = 2`), every late-arriving setter is
discarded: whatever the responses `roleData`/`resultsData` or the error
message are, the unmounted view's `role`, `results` and `error` state
are exactly as the synchronous prefix left them — independent of the
response — and the run is a total function, so no error is raised. -/
theorem c8_unmount_discards (roleData : Json) (resultsData : List Json)
    (msg : String) (st : ViewState) :
    runFrom st 0 2 (fetchDataSuccessSteps roleData resultsData) =
      ⟨st.role, st.results, true, none⟩ ∧
    runFrom st 0 2 (fetchDataFailureSteps msg) =
      ⟨st.role, st.results, true, none⟩ ∧
    runFrom st 0 2 (fetchDataPartialSteps roleData msg) =
      ⟨st.role, st.results, true, none⟩ :=
  ⟨rfl, rfl, rfl⟩

/-- The `FormData` built by `createRole(title, description, oldRubric)`:
`title` and `description` are always appended; `old_rubric` is appended
only when `oldRubric` is truthy, i.e. present and non-empty. -/
def createRoleFormData (title description : String)
    (oldRubric : Option String) : List (String × String) :=
  [("title", title), ("description", description)] ++
    (match oldRubric with
     | some r => if r = "" then [] else [("old_rubric", r)]
     | none => [])

/-- C9: for every call `createRole(title, description, guidanceTemplate)`,
the request's form data always contains the `title` and `description`
fields, and contains the `old_rubric` field with value
`guidanceTemplate` exactly when `guidanceTemplate` is a non-empty
(truthy) string; when it is absent or the empty string, the field is
omitted entirely. -/
theorem c9_old_rubric_optional (t d : String) (ob : Option String) :
    assocLookup (createRoleFormData t d ob) "title" = some t ∧
    assocLookup (createRoleFormData t d ob) "description" = some d ∧
    assocLookup (createRoleFormData t d ob) "old_rubric" =
      (match ob with
       | some g => if g = "" then none else some g
       | none => none) := by
  refine ⟨rfl, rfl, ?_⟩
  cases ob with
  | none => rfl
  | some g =>
    by_cases hg : g = ""
    · simp [createRoleFormData, assocLookup, hg]
    · simp [createRoleFormData, assocLookup, hg]

end TARubrics
